import Mathlib

/-!
Verification of pechorka/dev-tools (src/main.go and its use of Go
encoding/base64 RawStdEncoding).

Bytes are modelled as natural numbers below 256; Go byte strings are
modelled as lists of such numbers.  The base64 codec is a shallow
embedding of Go encoding/base64 with the RawStdEncoding configuration
(standard alphabet, no padding, non-strict decoding, CR and LF skipped
by the decoder), which is what main.go calls through
base64.RawStdEncoding.AppendEncode and AppendDecode.
-/

namespace DevTools

/-- Character of the standard base64 alphabet
"ABCDEFGHIJKLMNOPQRSTUVWXYZabcdefghijklmnopqrstuvwxyz0123456789+/"
at index i, as its ASCII code (Go encoding/base64 StdEncoding alphabet). -/
def encChar (i : Nat) : Nat :=
  if i < 26 then 65 + i
  else if i < 52 then 97 + (i - 26)
  else if i < 62 then 48 + (i - 52)
  else if i = 62 then 43
  else 47

/-- Inverse alphabet lookup: Go encoding/base64 decodeMap for the standard
alphabet, returning none for the 0xff (invalid) entries. -/
def decodeMapChar (c : Nat) : Option Nat :=
  if 65 ≤ c ∧ c ≤ 90 then some (c - 65)
  else if 97 ≤ c ∧ c ≤ 122 then some (26 + (c - 97))
  else if 48 ≤ c ∧ c ≤ 57 then some (52 + (c - 48))
  else if c = 43 then some 62
  else if c = 47 then some 63
  else none

/-- Sextet indices produced by Go base64 encoding of a byte sequence:
each 3-byte group yields 4 sextets; a trailing 2-byte group yields 3
sextets and a trailing single byte yields 2 sextets (RawStdEncoding,
so no padding sextets are appended). -/
def encodeB64Indices : List Nat → List Nat
  | [] => []
  | [b0] => [b0 / 4, b0 % 4 * 16]
  | [b0, b1] => [b0 / 4, b0 % 4 * 16 + b1 / 16, b1 % 16 * 4]
  | b0 :: b1 :: b2 :: rest =>
      b0 / 4 :: (b0 % 4 * 16 + b1 / 16) :: (b1 % 16 * 4 + b2 / 64) :: b2 % 64 ::
        encodeB64Indices rest

/-- base64.RawStdEncoding.AppendEncode(nil, B): the encoded bytes. -/
def rawStdEncode (B : List Nat) : List Nat :=
  (encodeB64Indices B).map encChar

/-- Go's base64 decoder skips carriage returns (13) and line feeds (10)
wherever they occur in the input; this predicate keeps every other byte. -/
def notCRLF (c : Nat) : Bool :=
  !(c == 13) && !(c == 10)

/-- Map every input character through the decode table, failing if any
character is not in the alphabet (Go decodeQuantum returning
CorruptInputError on a non-alphabet, non-CRLF byte, since RawStdEncoding
has no padding character). -/
def decodeChars : List Nat → Option (List Nat)
  | [] => some []
  | c :: rest =>
      match decodeMapChar c, decodeChars rest with
      | some v, some vs => some (v :: vs)
      | _, _ => none

/-- Reassemble bytes from sextets, one 4-sextet quantum at a time, exactly
as Go decodeQuantum does for RawStdEncoding: a trailing single sextet is
a CorruptInputError; trailing 2 or 3 sextets produce 1 or 2 bytes (Go's
default non-strict mode does not check the unused trailing bits). -/
def decodeSextets : List Nat → Option (List Nat)
  | [] => some []
  | [_] => none
  | [c0, c1] => some [c0 * 4 + c1 / 16]
  | [c0, c1, c2] => some [c0 * 4 + c1 / 16, c1 % 16 * 16 + c2 / 4]
  | c0 :: c1 :: c2 :: c3 :: rest =>
      match decodeSextets rest with
      | none => none
      | some bs =>
          some ((c0 * 4 + c1 / 16) :: (c1 % 16 * 16 + c2 / 4) :: (c2 % 4 * 64 + c3) :: bs)

/-- base64.RawStdEncoding.AppendDecode(nil, s): none models the error
return.  CR and LF are skipped first (as the Go decoder does on the fly);
every remaining character must be in the alphabet, and the sextet stream
is reassembled quantum by quantum. -/
def rawStdDecode (s : List Nat) : Option (List Nat) :=
  match decodeChars (s.filter notCRLF) with
  | none => none
  | some sextets => decodeSextets sextets

/-!
Input resolution (main.go readInput).  The external collaborators
(file system, stdin, clipboard) are abstracted as an InputWorld record
of read outcomes; readInput is its exact control flow.
-/

/-- Outcomes of the external reads that main.go readInput can perform.
stdinStat carries whether the stat succeeded and, on success, whether
the mode has the character-device bit set (fi.Mode and os.ModeCharDevice
being nonzero, i.e. an interactive terminal). -/
structure InputWorld where
  readFile : String → Except String (List Nat)
  stdinStat : Except String Bool
  stdinRead : Except String (List Nat)
  clipboardRead : Except String (List Nat)

/-- main.go readInput(filePath, text): explicit text first, then the
input file, then piped stdin when it is not a character device, then
the clipboard when it is nonempty, otherwise a terminal error.  Error
messages model errs.Wrap by prefixing the context to the cause. -/
def readInput (filePath : String) (text : List Nat) (w : InputWorld) :
    Except String (List Nat) :=
  if text ≠ [] then .ok text
  else if filePath ≠ "" then
    match w.readFile filePath with
    | .error e => .error ("failed to read file " ++ filePath ++ ": " ++ e)
    | .ok fileContent => .ok fileContent
  else
    match w.stdinStat with
    | .error e => .error ("failed to stat stdin: " ++ e)
    | .ok isCharDevice =>
      if isCharDevice = false then
        match w.stdinRead with
        | .error e => .error ("failed to read text from stdin: " ++ e)
        | .ok stdinContent => .ok stdinContent
      else
        match w.clipboardRead with
        | .error e => .error ("failed to read clipboard content: " ++ e)
        | .ok clipboardContent =>
          if clipboardContent.length > 0 then .ok clipboardContent
          else .error "no input provided"

/-!
Output writing (main.go writeOutput).
-/

/-- Outcomes of the external writes writeOutput can perform: some e is
a failure of the corresponding write with cause e, none is success. -/
structure OutWorld where
  fileWriteErr : String → List Nat → Option String
  stdoutWriteErr : List Nat → Option String

/-- The writes actually performed by a writeOutput call. -/
structure WriteEffects where
  fileWritten : Option (String × List Nat)
  stdoutWritten : Option (List Nat)
deriving DecidableEq

/-- main.go writeOutput(filePath, data): when filePath is nonempty the
data is first written to that file (os.WriteFile, create or truncate),
a failure being wrapped and returned; then the data is always copied to
stdout, a failure being wrapped and returned. -/
def writeOutput (filePath : String) (data : List Nat) (w : OutWorld) :
    WriteEffects × Option String :=
  if filePath ≠ "" then
    match w.fileWriteErr filePath data with
    | some e => (⟨none, none⟩, some ("failed to write data to file " ++ filePath ++ ": " ++ e))
    | none =>
      match w.stdoutWriteErr data with
      | some e => (⟨some (filePath, data), none⟩, some ("failed to write output to stdout: " ++ e))
      | none => (⟨some (filePath, data), some data⟩, none)
  else
    match w.stdoutWriteErr data with
    | some e => (⟨none, none⟩, some ("failed to write output to stdout: " ++ e))
    | none => (⟨none, some data⟩, none)

/-!
The base64 command (main.go newB64Command).
-/

/-- The flag variables of the base64 command after flag parsing
(-e and -encode default true, -d and -decode default false, -in and
-input, -t and -text, -o and -output); the text flag is modelled as
its bytes. -/
structure B64Flags where
  encode : Bool
  decode : Bool
  inputFile : String
  inputText : List Nat
  outputPath : String

/-- The transformation step of the base64 command's Run closure: the
decode flag is checked first, then the encode flag; when neither is
set, the output variable keeps its nil zero value.  The result is the
byte sequence handed to writeOutput.  The decode error models
errs.Wrap(err, "failed to encode content") with the cause abstracted. -/
def b64Transform (decodeFlag encodeFlag : Bool) (input : List Nat) :
    Except String (List Nat) :=
  if decodeFlag then
    match rawStdDecode input with
    | none => .error "failed to encode content"
    | some out => .ok out
  else if encodeFlag then .ok (rawStdEncode input)
  else .ok []

/-- The base64 command's Run closure: resolve the input, transform it,
write the result; the first failure is returned. -/
def b64Run (fl : B64Flags) (w : InputWorld) (ow : OutWorld) :
    Except String WriteEffects :=
  match readInput fl.inputFile fl.inputText w with
  | .error e => .error e
  | .ok input =>
    match b64Transform fl.decode fl.encode input with
    | .error e => .error e
    | .ok output =>
      match writeOutput fl.outputPath output ow with
      | (_, some e) => .error e
      | (eff, none) => .ok eff

/-- The error value that main.go run propagates from the base64
command's Run closure to main: the write effects are internal, only
the error escapes. -/
def b64RunResult (fl : B64Flags) (w : InputWorld) (ow : OutWorld) :
    Except String Unit :=
  match b64Run fl w ow with
  | .error e => .error e
  | .ok _ => .ok ()

/-!
The uuid command (main.go newUuidCommand).
-/

/-- The gostdlib generator that the uuid command's switch statement
invokes; noneSelected is the fall-through where output stays empty.
v4Crypto stands for uuid.NewV4CryptoString, v4Pseudo for
uuid.MustV4PseudoString, v7Pseudo for uuid.MustV7PseudoString. -/
inductive UuidGenerator
  | v4Pseudo
  | v4Crypto
  | v7Pseudo
  | noneSelected
deriving DecidableEq

/-- The switch in the uuid command's Run closure, case by case in
source order; note the final case (v7 and crypto) calls
uuid.NewV4CryptoString in the source. -/
def selectUuidGenerator (v4 v7 crypto : Bool) : UuidGenerator :=
  if v4 && !crypto then .v4Pseudo
  else if v4 && crypto then .v4Crypto
  else if v7 && !crypto then .v7Pseudo
  else if v7 && crypto then .v4Crypto
  else .noneSelected

/-- Modelled from the spec: the version nibble of the UUID layout each
gostdlib generator produces (the generators live in
github.com/pechorka/gostdlib/pkg/uuid, outside this repository): the
v4 generators produce the version-4 layout, the v7 generator the
version-7 timestamp-prefixed layout. -/
def generatorVersion : UuidGenerator → Option Nat
  | .v4Pseudo => some 4
  | .v4Crypto => some 4
  | .v7Pseudo => some 7
  | .noneSelected => none

/-!
Command dispatch (main.go main, run, usage).
-/

/-- The name fields of a registered Command (main.go Command struct;
the flag set and Run closure are modelled separately). -/
structure Command where
  name : String
  short : String
deriving DecidableEq

/-- main.go newB64Command returns Name "base64", Short "b64". -/
def base64Cmd : Command := ⟨"base64", "b64"⟩

/-- main.go newUuidCommand returns Name "uuid" and Short "b64" (the
short name collides with the base64 command's). -/
def uuidCmd : Command := ⟨"uuid", "b64"⟩

/-- The command list built in main, in registration order. -/
def registeredCommands : List Command := [base64Cmd, uuidCmd]

/-- The dispatch part of main.go run: with no positional argument it is
the "could't figure out command" error (message as in the source); the
first registered command whose Name or Short equals the first
positional argument is selected together with the remaining arguments;
otherwise the "is unknown command" error names the argument. -/
def dispatch (cmds : List Command) (rest : List String) :
    Except String (Command × List String) :=
  match rest with
  | [] => .error "could\x27t figure out command"
  | cmdName :: cmdArgs =>
    match cmds.find? (fun c => c.name == cmdName || c.short == cmdName) with
    | some c => .ok (c, cmdArgs)
    | none => .error (cmdName ++ " is unknown command")

/-- main.go run: dispatch, then invoke the selected command's Run (the
handler argument) on the remaining arguments. -/
def run (cmds : List Command) (rest : List String)
    (handler : Command → List String → Except String Unit) : Except String Unit :=
  match dispatch cmds rest with
  | .error e => .error e
  | .ok (c, cmdArgs) => handler c cmdArgs

/-- main.go main after run returns: on error, usage prints the error
and the usage listing to stderr and the process exits with code 2; on
success the process exits 0 without printing to stderr.  The pair is
(exit code, whether the error and usage were printed to stderr). -/
def mainExit (r : Except String Unit) : Nat × Bool :=
  match r with
  | .error _ => (2, true)
  | .ok _ => (0, false)

/-!
Worlds used by the witnesses below.
-/

/-- A world whose file read, stdin and clipboard all succeed with
distinct content, stdin not being a character device. -/
def sampleInputWorld : InputWorld where
  readFile := fun _ => .ok [1, 2]
  stdinStat := .ok false
  stdinRead := .ok [7]
  clipboardRead := .ok [9]

/-- A world where stdin is an interactive character device and the
clipboard read succeeds with empty content. -/
def interactiveEmptyClipWorld : InputWorld where
  readFile := fun _ => .error "boom"
  stdinStat := .ok true
  stdinRead := .error "boom"
  clipboardRead := .ok []

/-- An output world where every write succeeds. -/
def okOutWorld : OutWorld :=
  ⟨fun _ _ => none, fun _ => none⟩

/-- An output world where the file write fails. -/
def failFileOutWorld : OutWorld :=
  ⟨fun _ _ => some "disk full", fun _ => none⟩

/-- An output world where the stdout write fails. -/
def failStdoutOutWorld : OutWorld :=
  ⟨fun _ _ => none, fun _ => some "broken pipe"⟩

/-!
Helper lemmas about the base64 codec.
-/

theorem decodeMapChar_encChar : ∀ i : Nat, i < 64 → decodeMapChar (encChar i) = some i := by
  decide

theorem encChar_ne (i : Nat) : encChar i ≠ 61 ∧ encChar i ≠ 13 ∧ encChar i ≠ 10 := by
  unfold encChar
  refine ⟨?_, ?_, ?_⟩ <;> split_ifs <;> omega

theorem decodeChars_map_encChar :
    ∀ l : List Nat, (∀ i ∈ l, i < 64) → decodeChars (l.map encChar) = some l := by
  intro l
  induction l with
  | nil => intro _; rfl
  | cons a t ih =>
      intro h
      have ha : a < 64 := h a (List.mem_cons_self a t)
      have ht : ∀ i ∈ t, i < 64 := fun i hi => h i (List.mem_cons_of_mem a hi)
      simp [decodeChars, decodeMapChar_encChar a ha, ih ht]

theorem encodeB64Indices_lt :
    ∀ B : List Nat, (∀ b ∈ B, b < 256) → ∀ i ∈ encodeB64Indices B, i < 64 := by
  intro B
  induction B using encodeB64Indices.induct with
  | case1 =>
      intro _ i hi
      simp [encodeB64Indices] at hi
  | case2 b0 =>
      intro h i hi
      have h0 : b0 < 256 := h b0 (by simp)
      simp [encodeB64Indices] at hi
      rcases hi with h' | h' <;> omega
  | case3 b0 b1 =>
      intro h i hi
      have h0 : b0 < 256 := h b0 (by simp)
      have h1 : b1 < 256 := h b1 (by simp)
      simp [encodeB64Indices] at hi
      rcases hi with h' | h' | h' <;> omega
  | case4 b0 b1 b2 rest ih =>
      intro h i hi
      have h0 : b0 < 256 := h b0 (by simp)
      have h1 : b1 < 256 := h b1 (by simp)
      have h2 : b2 < 256 := h b2 (by simp)
      have hrest : ∀ b ∈ rest, b < 256 := fun b hb => h b (by simp [hb])
      simp [encodeB64Indices] at hi
      rcases hi with h' | h' | h' | h' | h'
      · omega
      · omega
      · omega
      · omega
      · exact ih hrest i h'

theorem decodeSextets_encodeB64Indices :
    ∀ B : List Nat, (∀ b ∈ B, b < 256) → decodeSextets (encodeB64Indices B) = some B := by
  intro B
  induction B using encodeB64Indices.induct with
  | case1 => intro _; rfl
  | case2 b0 =>
      intro h
      have h0 : b0 < 256 := h b0 (by simp)
      simp [encodeB64Indices, decodeSextets]
      omega
  | case3 b0 b1 =>
      intro h
      have h0 : b0 < 256 := h b0 (by simp)
      have h1 : b1 < 256 := h b1 (by simp)
      simp [encodeB64Indices, decodeSextets]
      constructor <;> omega
  | case4 b0 b1 b2 rest ih =>
      intro h
      have h0 : b0 < 256 := h b0 (by simp)
      have h1 : b1 < 256 := h b1 (by simp)
      have h2 : b2 < 256 := h b2 (by simp)
      have hrest : decodeSextets (encodeB64Indices rest) = some rest :=
        ih (fun b hb => h b (by simp [hb]))
      simp [encodeB64Indices, decodeSextets, hrest]
      refine ⟨?_, ?_, ?_⟩ <;> omega

theorem filter_notCRLF_rawStdEncode (B : List Nat) :
    (rawStdEncode B).filter notCRLF = rawStdEncode B := by
  apply List.filter_eq_self.mpr
  intro c hc
  rcases List.mem_map.mp hc with ⟨i, _, rfl⟩
  have h := encChar_ne i
  simp only [notCRLF, Bool.and_eq_true, Bool.not_eq_true']
  constructor <;> simpa [beq_eq_false_iff_ne] using by omega

theorem decodeChars_eq_none_of_mem {c : Nat} :
    ∀ {l : List Nat}, c ∈ l → decodeMapChar c = none → decodeChars l = none := by
  intro l
  induction l with
  | nil => intro h _; simp at h
  | cons a t ih =>
      intro hmem hc
      rcases List.mem_cons.mp hmem with rfl | hmem'
      · simp [decodeChars, hc]
      · cases hdc : decodeMapChar a <;> simp [decodeChars, hdc, ih hmem' hc]

theorem decodeChars_length :
    ∀ {l v : List Nat}, decodeChars l = some v → v.length = l.length := by
  intro l
  induction l with
  | nil =>
      intro v h
      simp [decodeChars] at h
      simp [← h]
  | cons a t ih =>
      intro v h
      cases hdc : decodeMapChar a with
      | none => simp [decodeChars, hdc] at h
      | some b =>
          cases hdt : decodeChars t with
          | none => simp [decodeChars, hdc, hdt] at h
          | some vs =>
              simp [decodeChars, hdc, hdt] at h
              simp [← h, ih hdt]

theorem decodeSextets_eq_none_of_mod :
    ∀ l : List Nat, l.length % 4 = 1 → decodeSextets l = none := by
  intro l
  induction l using decodeSextets.induct with
  | case1 => intro h; simp at h
  | case2 c => intro _; rfl
  | case3 c0 c1 => intro h; simp at h
  | case4 c0 c1 c2 => intro h; simp at h
  | case5 c0 c1 c2 c3 rest hnone ih =>
      intro _
      simp [decodeSextets, hnone]
  | case6 c0 c1 c2 c3 rest bs hsome ih =>
      intro h
      have h' : rest.length % 4 = 1 := by
        simp [List.length_cons] at h
        omega
      rw [ih h'] at hsome
      exact absurd hsome (by simp)

/-!
The claims.
-/

/-- C1: decoding the result of encoding any byte sequence with the base64
command's codec (Go base64.RawStdEncoding) returns the original bytes. -/
theorem b64_roundtrip (B : List Nat) (hB : ∀ b ∈ B, b < 256) :
    rawStdDecode (rawStdEncode B) = some B := by
  unfold rawStdDecode
  rw [filter_notCRLF_rawStdEncode, rawStdEncode,
    decodeChars_map_encChar _ (encodeB64Indices_lt B hB)]
  exact decodeSextets_encodeB64Indices B hB

/-- C1 witness: the round trip evaluated on the bytes of "hello". -/
theorem b64_roundtrip_witness :
    (∀ b ∈ [104, 101, 108, 108, 111], b < 256) ∧
      rawStdDecode (rawStdEncode [104, 101, 108, 108, 111]) = some [104, 101, 108, 108, 111] :=
  ⟨by decide, b64_roundtrip [104, 101, 108, 108, 111] (by decide)⟩

/-- C2 counterexample: with both flags false and resolved input the
single byte 97, the base64 command hands the output writer the empty
byte sequence (stdout receives nothing), not the input byte. -/
theorem b64_passthrough_cex :
    b64Run ⟨false, false, "", [97], ""⟩ sampleInputWorld okOutWorld =
      .ok ⟨none, some []⟩ ∧ some ([] : List Nat) ≠ some [97] :=
  ⟨rfl, by decide⟩

/-- C2 amended: whenever both the decode flag and the encode flag are
false, the base64 command hands the output writer the empty byte
sequence (the nil zero value of the output variable), regardless of the
resolved input bytes. -/
theorem b64_neither_flag_empty_output (input : List Nat) :
    b64Transform false false input = .ok [] := rfl

/-- C3 (code bug): with the v4 flag false, the v7 flag true and the
crypto flag true, the switch in the uuid command selects
uuid.NewV4CryptoString, whose output has the version-4 layout (version
nibble 4), not the v7 timestamp-prefixed layout the claim states. -/
theorem uuid_v7_crypto_selects_v4 :
    selectUuidGenerator false true true = UuidGenerator.v4Crypto ∧
      generatorVersion (selectUuidGenerator false true true) = some 4 :=
  ⟨rfl, rfl⟩

/-- C4: the input resolver short-circuits in priority order: nonempty
explicit text is returned as its raw bytes in every world, so the file
is never opened and the result does not depend on it; with empty text
and a nonempty file path the file content is returned; with neither, a
stdin that is not a character device is read in full even when the
clipboard has content. -/
theorem readInput_priority (filePath : String) (text : List Nat) (w : InputWorld) :
    (text ≠ [] → readInput filePath text w = .ok text) ∧
    (∀ c, text = [] → filePath ≠ "" → w.readFile filePath = .ok c →
      readInput filePath text w = .ok c) ∧
    (∀ sc, text = [] → filePath = "" → w.stdinStat = .ok false →
      w.stdinRead = .ok sc → readInput filePath text w = .ok sc) := by
  refine ⟨?_, ?_, ?_⟩
  · intro ht
    simp [readInput, ht]
  · intro c ht hf hr
    simp [readInput, ht, hf, hr]
  · intro sc ht hf hs hr
    simp [readInput, ht, hf, hs, hr]

/-- C4 witness: the three priority facts evaluated in a concrete world
whose file read, stdin and clipboard hold different content. -/
theorem readInput_priority_witness :
    readInput "f" [5] sampleInputWorld = .ok [5] ∧
    readInput "f" [] sampleInputWorld = .ok [1, 2] ∧
    readInput "" [] sampleInputWorld = .ok [7] :=
  ⟨(readInput_priority "f" [5] sampleInputWorld).1 (by decide),
   (readInput_priority "f" [] sampleInputWorld).2.1 [1, 2] rfl (by decide) rfl,
   (readInput_priority "" [] sampleInputWorld).2.2 [7] rfl rfl rfl rfl⟩

/-- C5: with no explicit text, no file path, stdin an interactive
character device, and a clipboard read that succeeds with empty
content, readInput returns exactly the "no input provided" error,
neither empty bytes nor a clipboard error. -/
theorem readInput_no_input (w : InputWorld)
    (hstat : w.stdinStat = .ok true) (hclip : w.clipboardRead = .ok []) :
    readInput "" [] w = .error "no input provided" := by
  simp [readInput, hstat, hclip]

/-- C5 witness: evaluated in a concrete interactive world with an empty
clipboard. -/
theorem readInput_no_input_witness :
    readInput "" [] interactiveEmptyClipWorld = .error "no input provided" :=
  readInput_no_input interactiveEmptyClipWorld rfl rfl

/-- C6: the encoded output never contains the pad character 61 or the
newline character 10; and the scenario bytes of "hello" encode to the
bytes of "aGVsbG8". -/
theorem b64_encode_no_pad_no_newline (B : List Nat) :
    (∀ c ∈ rawStdEncode B, c ≠ 61 ∧ c ≠ 10) ∧
      rawStdEncode [104, 101, 108, 108, 111] = [97, 71, 86, 115, 98, 71, 56] := by
  constructor
  · intro c hc
    rcases List.mem_map.mp (by simpa [rawStdEncode] using hc) with ⟨i, _, rfl⟩
    exact ⟨(encChar_ne i).1, (encChar_ne i).2.2⟩
  · rfl

/-- C6 witness: the first output byte of encoding "hello" is 97, which
is neither 61 nor 10. -/
theorem b64_encode_no_pad_no_newline_witness :
    (97 : Nat) ≠ 61 ∧ (97 : Nat) ≠ 10 :=
  (b64_encode_no_pad_no_newline [104, 101, 108, 108, 111]).1 97 (by decide)

/-- C7 counterexample: byte 10 (newline) is outside the base64 alphabet
yet decoding the input consisting of exactly that byte succeeds (the Go
decoder skips CR and LF), returning the empty byte sequence rather than
an error. -/
theorem b64_decode_reject_cex :
    decodeMapChar 10 = none ∧ rawStdDecode [10] = some [] :=
  ⟨rfl, rfl⟩

/-- C7 amended: decode fails on every input containing a byte that is
outside the alphabet and is not CR or LF (those two are skipped); it
fails whenever the number of bytes remaining after dropping CR and LF
is congruent to 1 mod 4; decoding the text "!!!" (bytes 33, 33, 33)
fails, and the base64 command invoked with the decode flag on that text
returns an error, so the process exits with the non-zero code 2. -/
theorem b64_decode_rejects (s : List Nat) :
    ((∃ c ∈ s, notCRLF c = true ∧ decodeMapChar c = none) → rawStdDecode s = none) ∧
    ((s.filter notCRLF).length % 4 = 1 → rawStdDecode s = none) ∧
    rawStdDecode [33, 33, 33] = none ∧
    (∀ w ow, b64Run ⟨true, true, "", [33, 33, 33], ""⟩ w ow = .error "failed to encode content" ∧
      mainExit (b64RunResult ⟨true, true, "", [33, 33, 33], ""⟩ w ow) = (2, true)) := by
  refine ⟨?_, ?_, rfl, fun w ow => ⟨rfl, rfl⟩⟩
  · rintro ⟨c, hcs, hcr, hcd⟩
    have hmem : c ∈ s.filter notCRLF := List.mem_filter.mpr ⟨hcs, hcr⟩
    simp [rawStdDecode, decodeChars_eq_none_of_mem hmem hcd]
  · intro hlen
    cases hdc : decodeChars (s.filter notCRLF) with
    | none => simp [rawStdDecode, hdc]
    | some v =>
        have hv : v.length % 4 = 1 := by
          rw [decodeChars_length hdc]
          exact hlen
        simp [rawStdDecode, hdc, decodeSextets_eq_none_of_mod v hv]

/-- C7 amended witness: the non-alphabet byte 33 and the invalid cleaned
length 1 each make decoding fail. -/
theorem b64_decode_rejects_witness :
    rawStdDecode [33] = none ∧ rawStdDecode [65] = none :=
  ⟨(b64_decode_rejects [33]).1 (by decide),
   (b64_decode_rejects [65]).2.1 (by decide)⟩

/-- C8: with no positional argument run returns the "no command" error
(message "could't figure out command" as in the source) and main exits
2 after printing the error and usage to stderr; with a first positional
argument matching no registered command's name or short name, run
returns the "is unknown command" error naming that argument, and main
again exits 2 after printing to stderr. -/
theorem dispatch_errors (cmds : List Command)
    (handler : Command → List String → Except String Unit) :
    (dispatch cmds [] = .error "could\x27t figure out command" ∧
      mainExit (run cmds [] handler) = (2, true)) ∧
    (∀ nm args, (∀ c ∈ cmds, c.name ≠ nm ∧ c.short ≠ nm) →
      dispatch cmds (nm :: args) = .error (nm ++ " is unknown command") ∧
      mainExit (run cmds (nm :: args) handler) = (2, true)) := by
  refine ⟨⟨rfl, rfl⟩, ?_⟩
  intro nm args hno
  have hfind : cmds.find? (fun c => c.name == nm || c.short == nm) = none := by
    apply List.find?_eq_none.mpr
    intro c hc
    have h := hno c hc
    simp [h.1, h.2]
  constructor
  · simp [dispatch, hfind]
  · simp [run, dispatch, hfind, mainExit]

/-- C8 witness: the two failure shapes on the registered command list,
with the unknown command "foo". -/
theorem dispatch_errors_witness :
    dispatch registeredCommands [] = .error "could\x27t figure out command" ∧
    dispatch registeredCommands ["foo"] = .error "foo is unknown command" ∧
    mainExit (run registeredCommands ["foo"] (fun _ _ => .ok ())) = (2, true) :=
  ⟨(dispatch_errors registeredCommands (fun _ _ => .ok ())).1.1,
   ((dispatch_errors registeredCommands (fun _ _ => .ok ())).2 "foo" [] (by decide)).1,
   ((dispatch_errors registeredCommands (fun _ _ => .ok ())).2 "foo" [] (by decide)).2⟩

/-- C9: writeOutput copies the bytes to stdout whether or not a path is
given (when the writes succeed), additionally writes them to the file
when a path is given, and returns a wrapped error on any file or stdout
write failure. -/
theorem writeOutput_spec (path : String) (data : List Nat) (w : OutWorld) :
    ((path ≠ "" → w.fileWriteErr path data = none) → w.stdoutWriteErr data = none →
      (writeOutput path data w).1.stdoutWritten = some data ∧
        (writeOutput path data w).2 = none) ∧
    (path ≠ "" → w.fileWriteErr path data = none →
      (writeOutput path data w).1.fileWritten = some (path, data)) ∧
    (∀ e, path ≠ "" → w.fileWriteErr path data = some e →
      (writeOutput path data w).2 =
        some ("failed to write data to file " ++ path ++ ": " ++ e)) ∧
    (∀ e, (path = "" ∨ w.fileWriteErr path data = none) → w.stdoutWriteErr data = some e →
      (writeOutput path data w).2 =
        some ("failed to write output to stdout: " ++ e)) := by
  refine ⟨?_, ?_, ?_, ?_⟩
  · intro hfile hstd
    by_cases hp : path = ""
    · simp [writeOutput, hp, hstd]
    · simp [writeOutput, hp, hfile hp, hstd]
  · intro hp hfile
    cases hs : w.stdoutWriteErr data <;> simp [writeOutput, hp, hfile, hs]
  · intro e hp hfile
    simp [writeOutput, hp, hfile]
  · intro e hor hstd
    rcases hor with hp | hfile
    · simp [writeOutput, hp, hstd]
    · by_cases hp : path = ""
      · simp [writeOutput, hp, hstd]
      · simp [writeOutput, hp, hfile, hstd]

/-- C9 witness: the success conjuncts in a world where every write
succeeds, and the two failure conjuncts in worlds where the file write
and the stdout write fail. -/
theorem writeOutput_spec_witness :
    ((writeOutput "f" [1] okOutWorld).1.stdoutWritten = some [1] ∧
      (writeOutput "f" [1] okOutWorld).2 = none) ∧
    (writeOutput "f" [1] okOutWorld).1.fileWritten = some ("f", [1]) ∧
    (writeOutput "f" [1] failFileOutWorld).2 =
      some "failed to write data to file f: disk full" ∧
    (writeOutput "" [1] failStdoutOutWorld).2 =
      some "failed to write output to stdout: broken pipe" :=
  ⟨(writeOutput_spec "f" [1] okOutWorld).1 (fun _ => rfl) rfl,
   (writeOutput_spec "f" [1] okOutWorld).2.1 (by decide) rfl,
   (writeOutput_spec "f" [1] failFileOutWorld).2.2.1 "disk full" (by decide) rfl,
   (writeOutput_spec "" [1] failStdoutOutWorld).2.2.2 "broken pipe" (Or.inl rfl) rfl⟩

/-- C10: dispatching the first positional argument "b64" selects the
base64 command (the first registered match) and run invokes its
handler on the remaining arguments; the uuid command, registered
second, carries the same short name "b64" but is a different command
and is never selected. -/
theorem dispatch_b64_selects_base64 (args : List String)
    (handler : Command → List String → Except String Unit) :
    dispatch registeredCommands ("b64" :: args) = .ok (base64Cmd, args) ∧
    run registeredCommands ("b64" :: args) handler = handler base64Cmd args ∧
    uuidCmd.short = "b64" ∧ base64Cmd ≠ uuidCmd :=
  ⟨rfl, rfl, rfl, by decide⟩

end DevTools
